import Mathlib

/-
Verification of the FT017TH wireless thermo/hygrometer receiver
(python package `wireless_sensor`, file `wireless_sensor/__init__.py`).

Part 1 embeds the pure bit-level decoder:
  * `FT017TH._parse_message`  (65-bit message -> Measurement or DecodeError)
  * `FT017TH._parse_transmission` (25-byte signal -> Measurement or DecodeError)
Machine bytes are modelled as natural numbers < 256, bits as `Bool`,
python floats as exact rationals (the calibration literals `576.077364`
and `51451.432435` become the rationals 576077364/10^6 and 51451432435/10^6;
the tolerance claims proved below are far wider than double rounding error).
The `decoding_timestamp` field (wall-clock `datetime.now()`) carries no
information relevant to any claim and is omitted from the value type.

Part 2 embeds the receive-session control loop `FT017TH.receive` as a
fuel-indexed interpreter over an explicit environment (the cc1101 driver,
the advisory SPI lock and the wall clock are the out-of-scope collaborators;
they are modelled as oracle streams).  Sleeps advance the model clock by
exactly the requested duration; a bounded packet wait advances it by an
environment-chosen duration clamped to the wait's timeout.
-/

namespace WirelessSensor

/-- Numeric value of one bit, as numpy stores them (uint8 0/1). -/
def bitVal (b : Bool) : ℕ := if b then 1 else 0

/-- Big-endian (most-significant-bit-first) value of a bit list. -/
def bitsToNat (bs : List Bool) : ℕ := bs.foldl (fun a b => 2 * a + bitVal b) 0

/-- One output byte of `numpy.packbits`: up to 8 bits, zero-padded at the end. -/
def byteFromBits (bs : List Bool) : ℕ :=
  bitsToNat (bs ++ List.replicate (8 - bs.length) false)

/-- `numpy.packbits` with the default big bit order: pack bits into bytes,
zero-padding the final partial byte. -/
def packbits : List Bool → List ℕ
  | [] => []
  | b0 :: b1 :: b2 :: b3 :: b4 :: b5 :: b6 :: b7 :: rest =>
      byteFromBits [b0, b1, b2, b3, b4, b5, b6, b7] :: packbits rest
  | bs => [byteFromBits bs]

/-- `struct.unpack(">H", buf)[0]` for a 2-byte buffer: big-endian 16-bit word.
(The source only ever applies it to `numpy.packbits` of 12 bits, which always
produces exactly 2 bytes; other shapes would raise `struct.error`.) -/
def unpackBE16 : List ℕ → ℕ
  | b0 :: b1 :: _ => 256 * b0 + b1
  | _ => 0

/-- The 8 bits of one byte, most significant first (`numpy.unpackbits`,
default big bit order, applied to one byte). -/
def byteToBits (b : ℕ) : List Bool :=
  (List.range 8).map (fun i => b.testBit (7 - i))

/-- `numpy.unpackbits` on a uint8 buffer (default big bit order). -/
def unpackbits (bytes : List ℕ) : List Bool :=
  (bytes.map byteToBits).flatten

/-- Python float literal `576.077364` from `_parse_message`
(temperature regression slope divisor). -/
def temperatureDivisor : ℚ := 576077364 / 1000000

/-- Python float literal `51451.432435` from `_parse_message`
(relative-humidity regression slope divisor). -/
def humidityDivisor : ℚ := 51451432435 / 1000000

/-- `wireless_sensor.Measurement` (named tuple); the wall-clock
`decoding_timestamp` field is omitted, see the file header. -/
structure Measurement where
  temperature_degrees_celsius : ℚ
  relative_humidity : ℚ
deriving DecidableEq, Repr

/-- The two `DecodeError` messages raised by the decoder.
`invalidHeader` is `DecodeError("invalid prefix in message: ...")`;
`repeatsMismatch` is `DecodeError("repeats do not match")`. -/
inductive DecodeError
  | invalidHeader
  | repeatsMismatch
deriving DecidableEq, Repr

/-- `FT017TH._MESSAGE_LENGTH_BITS`. -/
def MESSAGE_LENGTH_BITS : ℕ := 65

/-- `FT017TH._MESSAGE_REPEATS`. -/
def MESSAGE_REPEATS : ℕ := 3

/-- `FT017TH._parse_message`.  The python function asserts
`bits.shape == (65,)` (caller contract); theorems below carry the
65-bit length as a hypothesis.  Steps, in source order:
`if (bits[:8] != 1).any(): raise DecodeError(...)`;
`temperature_index = struct.unpack(">H", numpy.packbits(bits[32:44]))`;
`temperature_degrees_celsius = temperature_index / 576.077364 - 40`;
`relative_humidity_index = struct.unpack(">H", numpy.packbits(bits[44:56]))`;
`relative_humidity = relative_humidity_index / 51451.432435`. -/
def parse_message (bits : List Bool) : Except DecodeError Measurement :=
  if (bits.take 8).any (fun b => !b) then
    .error .invalidHeader
  else
    let temperature_index := unpackBE16 (packbits ((bits.drop 32).take 12))
    let relative_humidity_index := unpackBE16 (packbits ((bits.drop 44).take 12))
    .ok
      { temperature_degrees_celsius :=
          (temperature_index : ℚ) / temperatureDivisor - 40
        relative_humidity := (relative_humidity_index : ℚ) / humidityDivisor }

/-- `bits = numpy.unpackbits(signal)[: 65 * 3]` from `_parse_transmission`. -/
def transmissionBits (signal : List ℕ) : List Bool :=
  (unpackbits signal).take (MESSAGE_LENGTH_BITS * MESSAGE_REPEATS)

/-- `numpy.split(bits, 3)[i]` from `_parse_transmission`: the i-th 65-bit
repeat, `bits[65*i : 65*(i+1)]`. -/
def repeatBits (signal : List ℕ) (i : ℕ) : List Bool :=
  ((transmissionBits signal).drop (i * MESSAGE_LENGTH_BITS)).take MESSAGE_LENGTH_BITS

/-- `FT017TH._parse_transmission`.  Steps, in source order:
`bits = numpy.unpackbits(signal)[:65*3]`;
`repeats_bits = numpy.split(bits, 3)`;
`if array_equal(r[0], r[1]) or array_equal(r[0], r[2]): return _parse_message(r[0])`;
`raise DecodeError("repeats do not match")`. -/
def parse_transmission (signal : List ℕ) : Except DecodeError Measurement :=
  if repeatBits signal 0 = repeatBits signal 1 ∨
      repeatBits signal 0 = repeatBits signal 2 then
    parse_message (repeatBits signal 0)
  else .error .repeatsMismatch

/-- Bit list denoted by a string of characters `'0'` and `'1'`
(how the repository's tests write test vectors). -/
def bitsOfString (s : String) : List Bool := s.toList.map (fun c => c == '1')

instance {ε α : Type} [DecidableEq ε] [DecidableEq α] : DecidableEq (Except ε α)
  | .error e, .error f => decidable_of_iff (e = f) (by simp)
  | .error _, .ok _ => .isFalse (by simp)
  | .ok _, .error _ => .isFalse (by simp)
  | .ok a, .ok b => decidable_of_iff (a = b) (by simp)

/-- First reference bit vector from `tests/test_ft017th.py::test__parse_message`
(expected roughly 23.99 °C, 47.2 %). -/
def testMessageBitsA : List Bool :=
  bitsOfString "11111111101010001011001100100000100100000000010111101111001000011"

/-- Second reference bit vector from `tests/test_ft017th.py::test__parse_message`
(expected roughly 23.94 °C, 47.1 %). -/
def testMessageBitsB : List Bool :=
  bitsOfString "11111111101010001011001100100000100011111110010111101100010000011"

/-- The 25-byte reference signal from
`tests/test_ft017th.py::test__parse_transmission`:
`FF A8 B3 20 90 05 EF 21 FF D4 59 90 48 02 F7 90 FF ... FF`. -/
def testSignal : List ℕ :=
  [255, 168, 179, 32, 144, 5, 239, 33, 255, 212, 89, 144, 72,
   2, 247, 144, 255, 255, 255, 255, 255, 255, 255, 255, 255]

/-- A 65-bit message with a valid all-ones first byte, a zero temperature
field and an all-ones relative-humidity field (bits 44..55). -/
def msgMaxHumidity : List Bool :=
  List.replicate 8 true ++ List.replicate 36 false ++
    List.replicate 12 true ++ List.replicate 9 false

/-! ## The receive session `FT017TH.receive`

The async generator

```
lock_wait_seconds = self._LOCK_WAIT_START_SECONDS        # = 2
timeout = time.time() + timeout_seconds
while time.time() < timeout:
    try:
        with self._transceiver:                          # flock, may raise BlockingIOError
            self._configure_transceiver()
            if self._unlock_spi_device:
                self._transceiver.unlock_spi_device()
            while time.time() < timeout:
                await asyncio.sleep(1)                   # flood protection
                measurement = self._receive_measurement(
                    timeout_seconds=max(int(timeout - time.time()), 1))
                if measurement:
                    yield measurement
                    timeout = time.time() + timeout_seconds
                    lock_wait_seconds = self._LOCK_WAIT_START_SECONDS
    except _UnexpectedPacketLengthError:
        _LOGGER.info(...); await asyncio.sleep(1)
    except BlockingIOError:
        _LOGGER.info(...); await asyncio.sleep(lock_wait_seconds)
        lock_wait_seconds *= self._LOCK_WAIT_FACTOR      # = 2
_LOGGER.warning("timeout waiting for packet")
```

is embedded as a fuel-indexed interpreter.  The external world (the cc1101
driver, the advisory SPI flock, packet arrival and decodability) is an
oracle `Env`; the interpreter emits the session's observable actions in
order.  The model clock advances by exactly the requested duration on every
sleep and by an oracle-chosen duration (clamped to the wait's timeout) on
every bounded packet wait; all other steps are instantaneous.

One poll attempt is `_receive_measurement` preceded by the flood-protection
sleep.  Its five possible outcomes mirror the source: `_wait_for_packet`
returned a falsy value (`noPacket`, returns `None`), the packet length check
failed (`badLength`, raises `_UnexpectedPacketLengthError`),
`_parse_transmission` raised a `DecodeError` (`decodeFail`, returns `None`),
a measurement was decoded (`success`), or the SPI transfer itself hit the
advisory lock (`ioBlock`, raises `BlockingIOError`).

Note that when `_receive_measurement` returns `None` the generator body
yields nothing: `if measurement:` guards the only `yield`.  -/

/-- `FT017TH._LOCK_WAIT_START_SECONDS`. -/
def LOCK_WAIT_START_SECONDS : ℕ := 2

/-- `FT017TH._LOCK_WAIT_FACTOR`. -/
def LOCK_WAIT_FACTOR : ℕ := 2

/-- Oracle outcome of one `_receive_measurement` call. -/
inductive PollOutcome
  | noPacket
  | badLength
  | decodeFail
  | success
  | ioBlock
deriving DecidableEq, Repr

/-- Oracle data for one poll attempt: how long the bounded packet wait takes
(clamped to its timeout) and how it ends. -/
structure PollStep where
  waitDur : ℕ
  outcome : PollOutcome
deriving DecidableEq, Repr

/-- Oracle outcome of one acquisition attempt (`with self._transceiver:`
followed by `_configure_transceiver` and the optional
`unlock_spi_device`): `acqBlock` is a `BlockingIOError` from the flock
itself (nothing acquired), `cfgBlock` one raised during configuration,
`unlockBlock` one raised by the cooperative SPI unlock, `ok` a fully
configured transceiver. -/
inductive RoundStart
  | acqBlock
  | cfgBlock
  | unlockBlock
  | ok
deriving DecidableEq, Repr

/-- Observable actions of the receive session, in program order. -/
inductive Action
  | acquire
  | configure
  | unlockSpi
  | release
  | sleep (seconds : ℕ)
  | waitPacket (timeoutSeconds : ℕ)
  | yieldMeasurement
  | logInfoUnexpectedLength
  | logInfoLocked (seconds : ℕ)
  | logWarnTimeout
deriving DecidableEq, Repr

/-- The session's environment: the overall `timeout_seconds` argument, the
`unlock_spi_device` constructor flag, and the oracle streams for acquisition
attempts (indexed by attempt number) and poll attempts (indexed by poll
number). -/
structure Env where
  timeoutSeconds : ℕ
  unlockSpiDevice : Bool
  rounds : ℕ → RoundStart
  polls : ℕ → PollStep

/-- Mutable state of the session: the clock, the absolute deadline
(`timeout` in the source), the current contention backoff
(`lock_wait_seconds`), and the two oracle cursors. -/
structure SState where
  now : ℕ
  deadline : ℕ
  lockWait : ℕ
  roundIdx : ℕ
  pollIdx : ℕ
deriving DecidableEq, Repr

/-- How one execution of the inner `while` body ends. -/
inductive InnerExit
  | deadlineReached
  | unexpectedLength
  | blocked
deriving DecidableEq, Repr

/-- One iteration of the inner polling loop
(`while time.time() < timeout:` ... inside the `with` block):
check the deadline; flood-protection sleep of 1; call
`_receive_measurement(timeout_seconds=max(int(timeout - time.time()), 1))`;
on a measurement, yield it, slide the deadline to `now + timeout_seconds`
and reset the backoff.  Returns the emitted actions, `some exit` when the
loop stops (deadline reached or an exception propagates), and the next
state. -/
def innerStep (env : Env) (s : SState) : List Action × Option InnerExit × SState :=
  if s.now < s.deadline then
    let afterSleep := s.now + 1
    let step := env.polls s.pollIdx
    let waitTimeout := max (s.deadline - afterSleep) 1
    let afterWait := afterSleep + min step.waitDur waitTimeout
    match step.outcome with
    | .noPacket =>
        ([.sleep 1, .waitPacket waitTimeout], none,
         { s with now := afterWait, pollIdx := s.pollIdx + 1 })
    | .decodeFail =>
        ([.sleep 1, .waitPacket waitTimeout], none,
         { s with now := afterWait, pollIdx := s.pollIdx + 1 })
    | .success =>
        ([.sleep 1, .waitPacket waitTimeout, .yieldMeasurement], none,
         { s with now := afterWait, deadline := afterWait + env.timeoutSeconds,
                  lockWait := LOCK_WAIT_START_SECONDS, pollIdx := s.pollIdx + 1 })
    | .badLength =>
        ([.sleep 1, .waitPacket waitTimeout], some .unexpectedLength,
         { s with now := afterWait, pollIdx := s.pollIdx + 1 })
    | .ioBlock =>
        ([.sleep 1, .waitPacket waitTimeout], some .blocked,
         { s with now := afterWait, pollIdx := s.pollIdx + 1 })
  else ([], some .deadlineReached, s)

/-- The inner polling loop, iterated with fuel.  Exhausted fuel reports
`none` (no exit happened); theorems always supply enough fuel. -/
def innerLoop (env : Env) : ℕ → SState → List Action × Option InnerExit × SState
  | 0, s => ([], none, s)
  | fuel + 1, s =>
      match innerStep env s with
      | (acts, some e, s1) => (acts, some e, s1)
      | (acts, none, s1) =>
          let r := innerLoop env fuel s1
          (acts ++ r.1, r.2.1, r.2.2)

/-- Distinguishes a completed session (`_LOGGER.warning("timeout ...")`
reached) from an interpreter that ran out of fuel. -/
inductive SessionOutcome
  | finished
  | outOfFuel
deriving DecidableEq, Repr

/-- `unlock_spi_device()` is only called when the `unlock_spi_device`
constructor flag is set, so a `BlockingIOError` from it is only reachable
then; with the flag cleared the oracle value degenerates to a normal
round. -/
def effectiveRound (env : Env) (r : RoundStart) : RoundStart :=
  match r with
  | .unlockBlock => if env.unlockSpiDevice then .unlockBlock else .ok
  | r => r

/-- The outer loop of `FT017TH.receive` (`while time.time() < timeout:` with
its `try`/`except` arms), as a fuel-indexed interpreter.  Source mapping:
* deadline already passed → fall out of the loop, warn, end (`finished`);
* `.acqBlock`: `with` raised `BlockingIOError` before acquiring; the
  `except BlockingIOError` arm logs the wait, sleeps `lock_wait_seconds` and
  doubles it (nothing to release);
* `.cfgBlock` / `.unlockBlock`: the flock was acquired, then configuration
  (or the cooperative unlock, only reachable when `unlock_spi_device` is
  set) raised `BlockingIOError`; leaving the `with` releases the flock, then
  the same handler runs;
* `.ok`: acquired and configured (plus the optional `unlockSpi`), then the
  inner polling loop runs; normal exit releases and re-checks the deadline;
  `_UnexpectedPacketLengthError` releases, logs at info and sleeps the
  1-second reconfiguration cooldown; `BlockingIOError` releases and runs the
  contention handler. -/
def receiveLoop (env : Env) : ℕ → SState → List Action × SessionOutcome
  | 0, _ => ([], .outOfFuel)
  | fuel + 1, s =>
    if s.now < s.deadline then
      match effectiveRound env (env.rounds s.roundIdx) with
      | .acqBlock =>
          let r := receiveLoop env fuel
            { s with now := s.now + s.lockWait,
                     lockWait := s.lockWait * LOCK_WAIT_FACTOR,
                     roundIdx := s.roundIdx + 1 }
          (.logInfoLocked s.lockWait :: .sleep s.lockWait :: r.1, r.2)
      | .cfgBlock =>
          let r := receiveLoop env fuel
            { s with now := s.now + s.lockWait,
                     lockWait := s.lockWait * LOCK_WAIT_FACTOR,
                     roundIdx := s.roundIdx + 1 }
          (.acquire :: .release :: .logInfoLocked s.lockWait ::
             .sleep s.lockWait :: r.1, r.2)
      | .unlockBlock =>
          let r := receiveLoop env fuel
            { s with now := s.now + s.lockWait,
                     lockWait := s.lockWait * LOCK_WAIT_FACTOR,
                     roundIdx := s.roundIdx + 1 }
          (.acquire :: .configure :: .release :: .logInfoLocked s.lockWait ::
             .sleep s.lockWait :: r.1, r.2)
      | .ok =>
          let setup : List Action :=
            .acquire :: .configure ::
              (if env.unlockSpiDevice then [.unlockSpi] else [])
          let inner := innerLoop env fuel { s with roundIdx := s.roundIdx + 1 }
          match inner.2.1 with
          | none => (setup ++ inner.1, .outOfFuel)
          | some .deadlineReached =>
              let r := receiveLoop env fuel inner.2.2
              (setup ++ inner.1 ++ .release :: r.1, r.2)
          | some .unexpectedLength =>
              let s1 := inner.2.2
              let r := receiveLoop env fuel { s1 with now := s1.now + 1 }
              (setup ++ inner.1 ++
                 .release :: .logInfoUnexpectedLength :: .sleep 1 :: r.1, r.2)
          | some .blocked =>
              let s1 := inner.2.2
              let r := receiveLoop env fuel
                { s1 with now := s1.now + s1.lockWait,
                          lockWait := s1.lockWait * LOCK_WAIT_FACTOR }
              (setup ++ inner.1 ++
                 .release :: .logInfoLocked s1.lockWait ::
                   .sleep s1.lockWait :: r.1,
               r.2)
    else ([.logWarnTimeout], .finished)

/-- Entry point of `FT017TH.receive(timeout_seconds)`: backoff starts at
`_LOCK_WAIT_START_SECONDS`, the deadline at `now + timeout_seconds`; the
model clock starts at 0. -/
def receive (env : Env) (fuel : ℕ) : List Action × SessionOutcome :=
  receiveLoop env fuel
    { now := 0, deadline := env.timeoutSeconds,
      lockWait := LOCK_WAIT_START_SECONDS, roundIdx := 0, pollIdx := 0 }

/-! ## Trace observers and concrete scenarios -/

/-- Oracle stream given by a finite list and a default for later indices. -/
def pollsOfList (l : List PollStep) (d : PollStep) : ℕ → PollStep :=
  fun i => l.getD i d

/-- Oracle stream given by a finite list and a default for later indices. -/
def roundsOfList (l : List RoundStart) (d : RoundStart) : ℕ → RoundStart :=
  fun i => l.getD i d

/-- Is this action an item delivered to the consumer of the generator? -/
def isYield : Action → Bool
  | .yieldMeasurement => true
  | _ => false

/-- Is this action a bounded packet wait (one poll attempt)? -/
def isWait : Action → Bool
  | .waitPacket _ => true
  | _ => false

/-- The observed contention backoff durations of a trace, in order
(the value `n` of every `logInfoLocked n`, which is also the duration of
the sleep that immediately follows it). -/
def lockedSleeps (tr : List Action) : List ℕ :=
  tr.filterMap (fun a => match a with | .logInfoLocked n => some n | _ => none)

/-- Flood-protection scanner: walks a trace carrying the flag "the previous
action was a sleep of at least 1 time-unit"; fails (`none`) on a
`waitPacket` not immediately preceded by such a sleep, otherwise returns
the final flag. -/
def floodScan : List Action → Bool → Option Bool
  | [], prev => some prev
  | .waitPacket _ :: rest, prev => if prev then floodScan rest false else none
  | .sleep n :: rest, _ => floodScan rest (decide (1 ≤ n))
  | _ :: rest, _ => floodScan rest false

/-- Expected action trace of `n` consecutive contention events starting
from backoff duration `w`: each logs and sleeps the current duration, then
doubles it. -/
def contentionTrace (w : ℕ) : ℕ → List Action
  | 0 => []
  | n + 1 =>
      .logInfoLocked w :: .sleep w :: contentionTrace (w * LOCK_WAIT_FACTOR) n

/-- Total time consumed by the first `n` contention backoffs starting from
duration `w`. -/
def backoffSum (w : ℕ) : ℕ → ℕ
  | 0 => 0
  | n + 1 => w + backoffSum (w * LOCK_WAIT_FACTOR) n

/-- Scenario for claim C1: five poll attempts with outcomes
no-packet, no-packet, measurement, no-packet, measurement (each wait taking
4 time-units), then starvation until the deadline. -/
def envC1 : Env :=
  { timeoutSeconds := 20, unlockSpiDevice := false,
    rounds := fun _ => .ok,
    polls := pollsOfList
      [⟨4, .noPacket⟩, ⟨4, .noPacket⟩, ⟨4, .success⟩,
       ⟨4, .noPacket⟩, ⟨4, .success⟩]
      ⟨1000000, .noPacket⟩ }

/-- Scenario for claim C5: a contention, then a successful acquisition
whose first poll returns a packet of unexpected length (forcing the round
to end without any measurement), then a second contention. -/
def envC5 : Env :=
  { timeoutSeconds := 10, unlockSpiDevice := false,
    rounds := roundsOfList [.acqBlock, .ok, .acqBlock, .ok] .ok,
    polls := pollsOfList [⟨1, .badLength⟩] ⟨5, .noPacket⟩ }

/-- Scenario for the C5 witness: every acquisition attempt hits the lock. -/
def envContention : Env :=
  { timeoutSeconds := 10, unlockSpiDevice := false,
    rounds := fun _ => .acqBlock,
    polls := fun _ => ⟨0, .noPacket⟩ }

/-- Scenario for the C6 witness: the first poll decodes a measurement. -/
def envC6W : Env :=
  { timeoutSeconds := 5, unlockSpiDevice := false,
    rounds := fun _ => .ok,
    polls := fun _ => ⟨0, .success⟩ }

/-- Scenario for the C8 witness: the first poll returns a packet of
unexpected length; every acquisition succeeds. -/
def envC8W : Env :=
  { timeoutSeconds := 21, unlockSpiDevice := false,
    rounds := fun _ => .ok,
    polls := pollsOfList [⟨0, .badLength⟩] ⟨0, .noPacket⟩ }

/-- Scenario for the C10 witness, part 1: configuration hits the lock. -/
def envC10cfg : Env :=
  { timeoutSeconds := 9, unlockSpiDevice := false,
    rounds := fun _ => .cfgBlock,
    polls := fun _ => ⟨0, .noPacket⟩ }

/-- Scenario for the C10 witness, part 2: the cooperative SPI unlock hits
the lock. -/
def envC10unl : Env :=
  { timeoutSeconds := 9, unlockSpiDevice := true,
    rounds := fun _ => .unlockBlock,
    polls := fun _ => ⟨0, .noPacket⟩ }

/-- Scenario for the C10 witness, part 3: the packet wait hits the lock. -/
def envC10blk : Env :=
  { timeoutSeconds := 9, unlockSpiDevice := false,
    rounds := fun _ => .ok,
    polls := fun _ => ⟨0, .ioBlock⟩ }

/-! ## Helper lemmas: the bit-level decoder -/

theorem bitVal_false : bitVal false = 0 := rfl

theorem bitVal_le_one (b : Bool) : bitVal b ≤ 1 := by cases b <;> simp [bitVal]

/-- Packing 12 bits (as `numpy.packbits` does, zero-padding the second byte
on the right) and reading the two bytes as a big-endian 16-bit word gives
16 times the value of the 12 bits: the 12-bit field lands in the *high*
bits of the word. -/
theorem unpackBE16_packbits_twelve (bs : List Bool) (h : bs.length = 12) :
    unpackBE16 (packbits bs) = 16 * bitsToNat bs := by
  rcases bs with _ | ⟨b0, bs⟩ <;> simp at h
  rcases bs with _ | ⟨b1, bs⟩ <;> simp at h
  rcases bs with _ | ⟨b2, bs⟩ <;> simp at h
  rcases bs with _ | ⟨b3, bs⟩ <;> simp at h
  rcases bs with _ | ⟨b4, bs⟩ <;> simp at h
  rcases bs with _ | ⟨b5, bs⟩ <;> simp at h
  rcases bs with _ | ⟨b6, bs⟩ <;> simp at h
  rcases bs with _ | ⟨b7, bs⟩ <;> simp at h
  rcases bs with _ | ⟨b8, bs⟩ <;> simp at h
  rcases bs with _ | ⟨b9, bs⟩ <;> simp at h
  rcases bs with _ | ⟨b10, bs⟩ <;> simp at h
  rcases bs with _ | ⟨b11, bs⟩ <;> simp at h
  subst h
  simp [packbits, byteFromBits, bitsToNat, unpackBE16, bitVal_false]
  ring

theorem bitsToNat_aux (bs : List Bool) :
    ∀ a : ℕ, bs.foldl (fun a b => 2 * a + bitVal b) a < (a + 1) * 2 ^ bs.length := by
  induction bs with
  | nil => intro a; simp
  | cons b bs ih =>
      intro a
      have h1 := ih (2 * a + bitVal b)
      have h2 : bitVal b ≤ 1 := bitVal_le_one b
      calc List.foldl (fun a b => 2 * a + bitVal b) (2 * a + bitVal b) bs
          < (2 * a + bitVal b + 1) * 2 ^ bs.length := h1
        _ ≤ (a + 1) * 2 ^ (b :: bs).length := by
            simp [List.length_cons, pow_succ]
            nlinarith [Nat.pos_pow_of_pos bs.length (by norm_num : 0 < 2)]

/-- The value of an `n`-bit field is below `2 ^ n`. -/
theorem bitsToNat_lt (bs : List Bool) : bitsToNat bs < 2 ^ bs.length := by
  have := bitsToNat_aux bs 0
  simpa [bitsToNat] using this

/-- `numpy.unpackbits` yields 8 bits per byte. -/
theorem unpackbits_length (bytes : List ℕ) :
    (unpackbits bytes).length = 8 * bytes.length := by
  induction bytes with
  | nil => simp [unpackbits]
  | cons b bs ih =>
      simp only [unpackbits, List.map_cons, List.flatten_cons,
        List.length_append, List.length_cons] at ih ⊢
      simp [byteToBits, ih]
      omega

theorem humidityDivisor_pos : (0 : ℚ) < humidityDivisor := by
  norm_num [humidityDivisor]

/-! ## Claim C2 -/

/-- Claim C2, counterexample.  On the repository's own first reference
vector, the temperature index extracted by the code is `36864`
(the 12-bit field `2304` shifted into the high bits of a 16-bit word by
`numpy.packbits`), not the plain 12-bit value `2304`; dividing the plain
12-bit value by `576.077364` as the claim states would give roughly
−36 °C instead of the expected ≈ 23.99 °C. -/
theorem C2_counterexample :
    parse_message testMessageBitsA =
      .ok ⟨(36864 : ℚ) / temperatureDivisor - 40,
           (24304 : ℚ) / humidityDivisor⟩ ∧
    bitsToNat ((testMessageBitsA.drop 32).take 12) = 2304 ∧
    (36864 : ℚ) / temperatureDivisor - 40 ≠ (2304 : ℚ) / temperatureDivisor - 40 := by
  refine ⟨rfl, by decide, ?_⟩
  norm_num [temperatureDivisor]

/-- Claim C2 (amended): for every 65-bit message whose first 8 bits are all
1, `decode_message` returns a Measurement whose temperature equals **16
times** the 12-bit unsigned big-endian integer at bits [32,44) divided by
576.077364 minus 40, and whose relative humidity equals **16 times** the
12-bit unsigned big-endian integer at bits [44,56) divided by 51451.432435
(the factor 16 because `numpy.packbits` left-aligns the 12 bits in the
16-bit word that `struct.unpack(">H", ...)` reads). -/
theorem C2_calibration_amended (bits : List Bool) (hlen : bits.length = 65)
    (hpre : ((bits.take 8).all fun b => b) = true) :
    parse_message bits =
      .ok { temperature_degrees_celsius :=
              ((16 * bitsToNat ((bits.drop 32).take 12) : ℕ) : ℚ) /
                temperatureDivisor - 40,
            relative_humidity :=
              ((16 * bitsToNat ((bits.drop 44).take 12) : ℕ) : ℚ) /
                humidityDivisor } := by
  have h1 : ((bits.drop 32).take 12).length = 12 := by
    simp [List.length_take, List.length_drop, hlen]
  have h2 : ((bits.drop 44).take 12).length = 12 := by
    simp [List.length_take, List.length_drop, hlen]
  have hcond : ((bits.take 8).any fun b => !b) = false := by
    rw [List.any_eq_false]
    intro b hb
    have := List.all_eq_true.mp hpre b hb
    simp_all
  rw [parse_message, hcond]
  rw [unpackBE16_packbits_twelve _ h1, unpackBE16_packbits_twelve _ h2]
  rfl

/-- Witness for `C2_calibration_amended` at the first reference vector. -/
theorem C2_witness :
    testMessageBitsA.length = 65 ∧
    ((testMessageBitsA.take 8).all fun b => b) = true ∧
    parse_message testMessageBitsA =
      .ok { temperature_degrees_celsius :=
              ((16 * bitsToNat ((testMessageBitsA.drop 32).take 12) : ℕ) : ℚ) /
                temperatureDivisor - 40,
            relative_humidity :=
              ((16 * bitsToNat ((testMessageBitsA.drop 44).take 12) : ℕ) : ℚ) /
                humidityDivisor } :=
  ⟨by decide, by decide, C2_calibration_amended _ (by decide) (by decide)⟩

/-! ## Claim C3 -/

/-- Claim C3: a 25-byte signal is unpacked most-significant-bit-first, the
first 195 bits split into three 65-bit repeats in order; if repeat 0 equals
repeat 1 or repeat 2 the result is exactly the decode of repeat 0,
otherwise the transmission fails with the repeats-mismatch error — in
particular (last conjunct, which makes no assumption on repeats 1 and 2
beyond their disagreeing with repeat 0) agreement of repeat 1 with repeat 2
alone never suffices. -/
theorem C3_transmission_policy (signal : List ℕ) (hlen : signal.length = 25) :
    (repeatBits signal 0).length = 65 ∧
    (repeatBits signal 1).length = 65 ∧
    (repeatBits signal 2).length = 65 ∧
    transmissionBits signal =
      repeatBits signal 0 ++ repeatBits signal 1 ++ repeatBits signal 2 ∧
    (repeatBits signal 0 = repeatBits signal 1 ∨
        repeatBits signal 0 = repeatBits signal 2 →
      parse_transmission signal = parse_message (repeatBits signal 0)) ∧
    (repeatBits signal 0 ≠ repeatBits signal 1 →
      repeatBits signal 0 ≠ repeatBits signal 2 →
      parse_transmission signal = .error .repeatsMismatch) := by
  have hbits : (transmissionBits signal).length = 195 := by
    simp [transmissionBits, unpackbits_length, hlen,
      MESSAGE_LENGTH_BITS, MESSAGE_REPEATS]
  refine ⟨?_, ?_, ?_, ?_, ?_, ?_⟩
  · simp [repeatBits, List.length_take, List.length_drop, hbits,
      MESSAGE_LENGTH_BITS]
  · simp [repeatBits, List.length_take, List.length_drop, hbits,
      MESSAGE_LENGTH_BITS]
  · simp [repeatBits, List.length_take, List.length_drop, hbits,
      MESSAGE_LENGTH_BITS]
  · have e0 : repeatBits signal 0 = (transmissionBits signal).take 65 := by
      simp [repeatBits, MESSAGE_LENGTH_BITS]
    have e1 : repeatBits signal 1 =
        ((transmissionBits signal).drop 65).take 65 := by
      simp [repeatBits, MESSAGE_LENGTH_BITS]
    have e2 : repeatBits signal 2 = (transmissionBits signal).drop 130 := by
      have hd : ((transmissionBits signal).drop 130).length ≤ 65 := by
        simp [List.length_drop, hbits]
      simp only [repeatBits, MESSAGE_LENGTH_BITS]
      rw [show 2 * 65 = 130 from rfl]
      exact List.take_of_length_le hd
    rw [e0, e1, e2, List.append_assoc,
      show (130 : ℕ) = 65 + 65 by norm_num, ← List.drop_drop,
      List.take_append_drop, List.take_append_drop]
  · intro hor
    rw [parse_transmission, if_pos hor]
  · intro h1 h2
    rw [parse_transmission, if_neg (by tauto)]

/-- Witness for `C3_transmission_policy` at the repository's reference
signal (whose repeat 0 agrees with a later repeat, so it decodes). -/
theorem C3_witness :
    (repeatBits testSignal 0).length = 65 ∧
    transmissionBits testSignal =
      repeatBits testSignal 0 ++ repeatBits testSignal 1 ++
        repeatBits testSignal 2 ∧
    parse_transmission testSignal = parse_message (repeatBits testSignal 0) :=
  ⟨(C3_transmission_policy testSignal (by decide)).1,
   (C3_transmission_policy testSignal (by decide)).2.2.2.1,
   (C3_transmission_policy testSignal (by decide)).2.2.2.2.1 (by decide)⟩

/-! ## Claim C4 -/

/-- Claim C4: the two reference bit vectors from the repository's tests
decode to ≈ 23.99 °C / ≈ 47.2 % and ≈ 23.94 °C / ≈ 47.1 % within the
stated tolerances. -/
theorem C4_reference_vectors :
    (parse_message testMessageBitsA =
        .ok ⟨(36864 : ℚ) / temperatureDivisor - 40,
             (24304 : ℚ) / humidityDivisor⟩ ∧
      |(36864 : ℚ) / temperatureDivisor - 40 - 2399 / 100| < 1 / 100 ∧
      |(24304 : ℚ) / humidityDivisor - 472 / 1000| < 1 / 1000) ∧
    (parse_message testMessageBitsB =
        .ok ⟨(36832 : ℚ) / temperatureDivisor - 40,
             (24256 : ℚ) / humidityDivisor⟩ ∧
      |(36832 : ℚ) / temperatureDivisor - 40 - 2394 / 100| < 1 / 100 ∧
      |(24256 : ℚ) / humidityDivisor - 471 / 1000| < 1 / 1000) := by
  refine ⟨⟨rfl, ?_, ?_⟩, rfl, ?_, ?_⟩ <;>
    · rw [abs_sub_lt_iff]
      constructor <;> norm_num [temperatureDivisor, humidityDivisor]

/-! ## Claim C7 -/

/-- Claim C7, counterexample.  A 65-bit message with a valid prefix and an
all-ones humidity field decodes successfully to a relative humidity of
`65520 / 51451.432435 ≈ 1.2735 > 1`: decoded humidity is *not* confined to
`[0, 1]`. -/
theorem C7_counterexample :
    msgMaxHumidity.length = 65 ∧
    parse_message msgMaxHumidity =
      .ok ⟨(0 : ℚ) / temperatureDivisor - 40, (65520 : ℚ) / humidityDivisor⟩ ∧
    (1 : ℚ) < (65520 : ℚ) / humidityDivisor := by
  refine ⟨by decide, rfl, ?_⟩
  norm_num [humidityDivisor]

/-- Claim C7 (amended): every successfully decoded 65-bit message has
relative humidity in `[0, 65520 / 51451.432435]` (≈ `[0, 1.2735]`); the
upper end exceeds 1, with the all-ones humidity field as witness. -/
theorem C7_humidity_range_amended (bits : List Bool) (m : Measurement)
    (hlen : bits.length = 65) (h : parse_message bits = .ok m) :
    0 ≤ m.relative_humidity ∧
      m.relative_humidity ≤ (65520 : ℚ) / humidityDivisor := by
  by_cases hc : ((bits.take 8).any fun b => !b) = true
  · rw [parse_message, hc] at h
    simp at h
  · have hc' : ((bits.take 8).any fun b => !b) = false :=
      Bool.eq_false_iff.mpr hc
    rw [parse_message, hc'] at h
    simp only [Bool.false_eq_true, if_false, Except.ok.injEq] at h
    subst h
    dsimp only
    have h2 : ((bits.drop 44).take 12).length = 12 := by
      simp [List.length_take, List.length_drop, hlen]
    rw [unpackBE16_packbits_twelve _ h2]
    have hb : bitsToNat ((bits.drop 44).take 12) < 2 ^ 12 := by
      have := bitsToNat_lt ((bits.drop 44).take 12)
      rwa [h2] at this
    constructor
    · apply div_nonneg _ (le_of_lt humidityDivisor_pos)
      positivity
    · apply (div_le_div_iff_of_pos_right humidityDivisor_pos).mpr
      have : (16 * bitsToNat ((bits.drop 44).take 12) : ℕ) ≤ 65520 := by omega
      exact_mod_cast this

/-! ## Helper lemmas: the receive session -/

theorem innerStep_roundIdx (env : Env) (s : SState) :
    ((innerStep env s).2.2).roundIdx = s.roundIdx := by
  rw [innerStep]
  split
  · cases ho : (env.polls s.pollIdx).outcome <;> simp [ho]
  · rfl

theorem innerLoop_roundIdx (env : Env) (fuel : ℕ) (s : SState) :
    ((innerLoop env fuel s).2.2).roundIdx = s.roundIdx := by
  induction fuel generalizing s with
  | zero => rfl
  | succ f ih =>
      rw [innerLoop]
      rcases hstep : innerStep env s with ⟨acts, ex, s1⟩
      have hr : s1.roundIdx = s.roundIdx := by
        have := innerStep_roundIdx env s
        rw [hstep] at this
        exact this
      cases ex with
      | none => simpa using (ih s1).trans hr
      | some e => simpa using hr

/-- Inside the deadline, every inner-loop run starts with the
flood-protection sleep followed by the bounded packet wait. -/
theorem innerLoop_start (env : Env) (f : ℕ) (s : SState)
    (h : s.now < s.deadline) :
    ∃ rest, (innerLoop env (f + 1) s).1 =
      .sleep 1 :: .waitPacket (max (s.deadline - (s.now + 1)) 1) :: rest := by
  rw [innerLoop, innerStep, if_pos h]
  cases ho : (env.polls s.pollIdx).outcome <;> simp [ho]

theorem receiveLoop_finish (env : Env) (fuel : ℕ) (s : SState)
    (h : s.deadline ≤ s.now) :
    receiveLoop env (fuel + 1) s = ([.logWarnTimeout], .finished) := by
  rw [receiveLoop, if_neg (not_lt.mpr h)]

theorem receiveLoop_acqBlock (env : Env) (fuel : ℕ) (s : SState)
    (hlt : s.now < s.deadline)
    (hr : effectiveRound env (env.rounds s.roundIdx) = .acqBlock) :
    receiveLoop env (fuel + 1) s =
      (.logInfoLocked s.lockWait :: .sleep s.lockWait ::
         (receiveLoop env fuel
           { s with now := s.now + s.lockWait,
                    lockWait := s.lockWait * LOCK_WAIT_FACTOR,
                    roundIdx := s.roundIdx + 1 }).1,
       (receiveLoop env fuel
         { s with now := s.now + s.lockWait,
                  lockWait := s.lockWait * LOCK_WAIT_FACTOR,
                  roundIdx := s.roundIdx + 1 }).2) := by
  rw [receiveLoop, if_pos hlt, hr]

theorem receiveLoop_cfgBlock (env : Env) (fuel : ℕ) (s : SState)
    (hlt : s.now < s.deadline)
    (hr : effectiveRound env (env.rounds s.roundIdx) = .cfgBlock) :
    receiveLoop env (fuel + 1) s =
      (.acquire :: .release :: .logInfoLocked s.lockWait :: .sleep s.lockWait ::
         (receiveLoop env fuel
           { s with now := s.now + s.lockWait,
                    lockWait := s.lockWait * LOCK_WAIT_FACTOR,
                    roundIdx := s.roundIdx + 1 }).1,
       (receiveLoop env fuel
         { s with now := s.now + s.lockWait,
                  lockWait := s.lockWait * LOCK_WAIT_FACTOR,
                  roundIdx := s.roundIdx + 1 }).2) := by
  rw [receiveLoop, if_pos hlt, hr]

theorem receiveLoop_unlockBlock (env : Env) (fuel : ℕ) (s : SState)
    (hlt : s.now < s.deadline)
    (hr : effectiveRound env (env.rounds s.roundIdx) = .unlockBlock) :
    receiveLoop env (fuel + 1) s =
      (.acquire :: .configure :: .release :: .logInfoLocked s.lockWait ::
         .sleep s.lockWait ::
         (receiveLoop env fuel
           { s with now := s.now + s.lockWait,
                    lockWait := s.lockWait * LOCK_WAIT_FACTOR,
                    roundIdx := s.roundIdx + 1 }).1,
       (receiveLoop env fuel
         { s with now := s.now + s.lockWait,
                  lockWait := s.lockWait * LOCK_WAIT_FACTOR,
                  roundIdx := s.roundIdx + 1 }).2) := by
  rw [receiveLoop, if_pos hlt, hr]

theorem receiveLoop_ok_unexpected (env : Env) (fuel : ℕ) (s : SState)
    (iacts : List Action) (s1 : SState)
    (hlt : s.now < s.deadline)
    (hr : effectiveRound env (env.rounds s.roundIdx) = .ok)
    (hinner : innerLoop env fuel { s with roundIdx := s.roundIdx + 1 } =
      (iacts, some .unexpectedLength, s1)) :
    receiveLoop env (fuel + 1) s =
      ((.acquire :: .configure ::
          (if env.unlockSpiDevice then [.unlockSpi] else [])) ++ iacts ++
         .release :: .logInfoUnexpectedLength :: .sleep 1 ::
           (receiveLoop env fuel { s1 with now := s1.now + 1 }).1,
       (receiveLoop env fuel { s1 with now := s1.now + 1 }).2) := by
  rw [receiveLoop, if_pos hlt, hr, hinner]

theorem receiveLoop_ok_blocked (env : Env) (fuel : ℕ) (s : SState)
    (iacts : List Action) (s1 : SState)
    (hlt : s.now < s.deadline)
    (hr : effectiveRound env (env.rounds s.roundIdx) = .ok)
    (hinner : innerLoop env fuel { s with roundIdx := s.roundIdx + 1 } =
      (iacts, some .blocked, s1)) :
    receiveLoop env (fuel + 1) s =
      ((.acquire :: .configure ::
          (if env.unlockSpiDevice then [.unlockSpi] else [])) ++ iacts ++
         .release :: .logInfoLocked s1.lockWait :: .sleep s1.lockWait ::
           (receiveLoop env fuel
             { s1 with now := s1.now + s1.lockWait,
                       lockWait := s1.lockWait * LOCK_WAIT_FACTOR }).1,
       (receiveLoop env fuel
         { s1 with now := s1.now + s1.lockWait,
                   lockWait := s1.lockWait * LOCK_WAIT_FACTOR }).2) := by
  rw [receiveLoop, if_pos hlt, hr, hinner]

theorem receiveLoop_ok_deadline (env : Env) (fuel : ℕ) (s : SState)
    (iacts : List Action) (s1 : SState)
    (hlt : s.now < s.deadline)
    (hr : effectiveRound env (env.rounds s.roundIdx) = .ok)
    (hinner : innerLoop env fuel { s with roundIdx := s.roundIdx + 1 } =
      (iacts, some .deadlineReached, s1)) :
    receiveLoop env (fuel + 1) s =
      ((.acquire :: .configure ::
          (if env.unlockSpiDevice then [.unlockSpi] else [])) ++ iacts ++
         .release :: (receiveLoop env fuel s1).1,
       (receiveLoop env fuel s1).2) := by
  rw [receiveLoop, if_pos hlt, hr, hinner]

/-- Inside the deadline, every successfully acquired round starts with the
acquisition/configuration actions followed by the inner polling trace. -/
theorem receiveLoop_ok_setup (env : Env) (fuel : ℕ) (s : SState)
    (hlt : s.now < s.deadline)
    (hr : effectiveRound env (env.rounds s.roundIdx) = .ok) :
    ∃ rest,
      (receiveLoop env (fuel + 1) s).1 =
        (.acquire :: .configure ::
           (if env.unlockSpiDevice then [.unlockSpi] else [])) ++
          (innerLoop env fuel { s with roundIdx := s.roundIdx + 1 }).1 ++
          rest := by
  rw [receiveLoop, if_pos hlt, hr]
  rcases hi : innerLoop env fuel { s with roundIdx := s.roundIdx + 1 }
    with ⟨ia, ex, st⟩
  rcases ex with _ | e
  · exact ⟨[], by simp⟩
  · cases e with
    | deadlineReached =>
        exact ⟨.release :: (receiveLoop env fuel st).1, by simp⟩
    | unexpectedLength =>
        exact ⟨.release :: .logInfoUnexpectedLength :: .sleep 1 ::
          (receiveLoop env fuel { st with now := st.now + 1 }).1, by simp⟩
    | blocked =>
        exact ⟨.release :: .logInfoLocked st.lockWait :: .sleep st.lockWait ::
          (receiveLoop env fuel
            { st with now := st.now + st.lockWait,
                      lockWait := st.lockWait * LOCK_WAIT_FACTOR }).1, by simp⟩

theorem receiveLoop_ok_head (env : Env) (fuel : ℕ) (s : SState)
    (hlt : s.now < s.deadline)
    (hr : effectiveRound env (env.rounds s.roundIdx) = .ok) :
    ∃ rest, (receiveLoop env (fuel + 1) s).1 = .acquire :: rest := by
  obtain ⟨rest, hrest⟩ := receiveLoop_ok_setup env fuel s hlt hr
  exact ⟨.configure :: ((if env.unlockSpiDevice then [.unlockSpi] else []) ++
    ((innerLoop env fuel { s with roundIdx := s.roundIdx + 1 }).1 ++ rest)),
    by rw [hrest]; simp⟩

/-- The N-consecutive-contentions lemma: while the rounds oracle keeps
reporting a busy lock and the deadline is not hit, the trace is exactly the
log/sleep pairs of the doubling backoff. -/
theorem receiveLoop_contention (env : Env) :
    ∀ (N fuel : ℕ) (s : SState), N ≤ fuel →
      (∀ i, i < N → env.rounds (s.roundIdx + i) = .acqBlock) →
      (∀ k, k < N → s.now + backoffSum s.lockWait k < s.deadline) →
      ∃ tr, (receiveLoop env fuel s).1 = contentionTrace s.lockWait N ++ tr := by
  intro N
  induction N with
  | zero =>
      exact fun fuel s _ _ _ =>
        ⟨(receiveLoop env fuel s).1, by simp [contentionTrace]⟩
  | succ n ih =>
      intro fuel s hfuel hr ht
      rcases fuel with _ | f
      · omega
      have hlt : s.now < s.deadline := by
        have := ht 0 (Nat.succ_pos n)
        simpa [backoffSum] using this
      have hr0 : effectiveRound env (env.rounds s.roundIdx) = .acqBlock := by
        have h0 := hr 0 (Nat.succ_pos n)
        rw [Nat.add_zero] at h0
        rw [h0]
        rfl
      rw [receiveLoop_acqBlock env f s hlt hr0]
      obtain ⟨tr, htr⟩ := ih f
        { s with now := s.now + s.lockWait,
                 lockWait := s.lockWait * LOCK_WAIT_FACTOR,
                 roundIdx := s.roundIdx + 1 }
        (by omega)
        (fun i hi => by
          have h1 := hr (i + 1) (by omega)
          have h2 : s.roundIdx + (i + 1) = s.roundIdx + 1 + i := by omega
          rw [h2] at h1
          exact h1)
        (fun k hk => by
          have h1 := ht (k + 1) (by omega)
          have h2 : backoffSum s.lockWait (k + 1) =
              s.lockWait + backoffSum (s.lockWait * LOCK_WAIT_FACTOR) k := rfl
          rw [h2] at h1
          simp only [SState.mk.injEq]
          omega)
      exact ⟨tr, by simp [contentionTrace, htr]⟩

theorem contentionTrace_length (w N : ℕ) :
    (contentionTrace w N).length = 2 * N := by
  induction N generalizing w with
  | zero => rfl
  | succ n ih => simp [contentionTrace, ih]; omega

/-- `floodScan` distributes over concatenation. -/
theorem floodScan_append (xs ys : List Action) (p : Bool) :
    floodScan (xs ++ ys) p = (floodScan xs p).bind fun q => floodScan ys q := by
  induction xs generalizing p with
  | nil => simp [floodScan]
  | cons a xs ih => cases a <;> cases p <;> simp [floodScan, ih]

theorem floodScan_innerStep (env : Env) (s : SState) (p : Bool) :
    ∃ q, floodScan (innerStep env s).1 p = some q := by
  rw [innerStep]
  split
  · cases ho : (env.polls s.pollIdx).outcome <;> simp [ho, floodScan]
  · exact ⟨p, rfl⟩

theorem floodScan_innerLoop (env : Env) (fuel : ℕ) (s : SState) (p : Bool) :
    ∃ q, floodScan (innerLoop env fuel s).1 p = some q := by
  induction fuel generalizing s p with
  | zero => exact ⟨p, rfl⟩
  | succ f ih =>
      rw [innerLoop]
      rcases hstep : innerStep env s with ⟨acts, ex, s1⟩
      obtain ⟨q0, hq0⟩ : ∃ q0, floodScan acts p = some q0 := by
        have := floodScan_innerStep env s p
        rw [hstep] at this
        exact this
      cases ex with
      | none =>
          obtain ⟨q1, hq1⟩ := ih s1 q0
          exact ⟨q1, by simp [floodScan_append, hq0, hq1]⟩
      | some e => exact ⟨q0, by simpa using hq0⟩

/-- Every packet wait in every session trace is immediately preceded by a
sleep of at least one time-unit. -/
theorem floodScan_receiveLoop (env : Env) (fuel : ℕ) (s : SState) (p : Bool) :
    (floodScan (receiveLoop env fuel s).1 p).isSome = true := by
  induction fuel generalizing s p with
  | zero => rfl
  | succ f ih =>
      by_cases hlt : s.now < s.deadline
      · cases hr : effectiveRound env (env.rounds s.roundIdx) with
        | acqBlock =>
            rw [receiveLoop_acqBlock env f s hlt hr]
            simp only [floodScan]
            exact ih _ _
        | cfgBlock =>
            rw [receiveLoop_cfgBlock env f s hlt hr]
            simp only [floodScan]
            exact ih _ _
        | unlockBlock =>
            rw [receiveLoop_unlockBlock env f s hlt hr]
            simp only [floodScan]
            exact ih _ _
        | ok =>
            rcases hi : innerLoop env f { s with roundIdx := s.roundIdx + 1 }
              with ⟨ia, ex, st⟩
            obtain ⟨q0, hq0⟩ : ∃ q0, floodScan ia false = some q0 := by
              have := floodScan_innerLoop env f
                { s with roundIdx := s.roundIdx + 1 } false
              rw [hi] at this
              exact this
            have hsetup : ∀ l : List Action,
                floodScan ((.acquire :: .configure ::
                  (if env.unlockSpiDevice then [.unlockSpi] else [])) ++ l) p =
                  floodScan l false := by
              intro l
              cases hu : env.unlockSpiDevice <;> simp [floodScan]
            cases ex with
            | none =>
                rw [receiveLoop, if_pos hlt, hr, hi]
                dsimp only
                rw [hsetup, hq0]
                rfl
            | some e =>
                cases e with
                | deadlineReached =>
                    rw [receiveLoop_ok_deadline env f s ia st hlt hr hi]
                    dsimp only
                    rw [List.append_assoc, hsetup, floodScan_append, hq0,
                      Option.some_bind]
                    simp only [floodScan]
                    exact ih _ _
                | unexpectedLength =>
                    rw [receiveLoop_ok_unexpected env f s ia st hlt hr hi]
                    dsimp only
                    rw [List.append_assoc, hsetup, floodScan_append, hq0,
                      Option.some_bind]
                    simp only [floodScan]
                    exact ih _ _
                | blocked =>
                    rw [receiveLoop_ok_blocked env f s ia st hlt hr hi]
                    dsimp only
                    rw [List.append_assoc, hsetup, floodScan_append, hq0,
                      Option.some_bind]
                    simp only [floodScan]
                    exact ih _ _
      · rw [receiveLoop_finish env f s (not_lt.mp hlt)]
        rfl

/-! ## Claim C1 -/

/-- Claim C1 evaluated on the code: a session whose successive poll
attempts produce None, None, Measurement, None, Measurement delivers only
the **two** measurements — the generator's only `yield` sits under
`if measurement:`, so a poll attempt with no usable measurement delivers
nothing at all (no `None` item exists in the output).  In `envC1` the five
scripted polls (and a sixth starving one) lead to exactly 2 yielded items
among 6 poll attempts, against the 5 items (3 of them `None`) the claim
requires.  The repository's own tests
(`test_receive`, `test_receive_failed_to_decode`, …) assert
`next(measurement_iter) is None` for such attempts, so the shipped code
contradicts its tests: the claim reflects the intent and the code drops
the `None` items. -/
theorem C1_none_items_dropped :
    ((receive envC1 20).1.filter isYield).length = 2 ∧
    ((receive envC1 20).1.filter isWait).length = 6 ∧
    (receive envC1 20).2 = .finished := by
  refine ⟨?_, ?_, ?_⟩ <;> rfl

/-! ## Claim C5 -/

/-- Claim C5, counterexample.  In `envC5` the session suffers a contention
(backoff 2, doubled to 4), then **successfully acquires and configures**
the transceiver (the `acquire` action below), loses the round to an
unexpected-length packet without producing a measurement, and on the next
contention waits 4 — not 2.  A successful acquisition therefore does *not*
reset the backoff; only producing a measurement does. -/
theorem C5_counterexample :
    (receive envC5 40).1 =
      [.logInfoLocked 2, .sleep 2, .acquire, .configure, .sleep 1,
       .waitPacket 7, .release, .logInfoUnexpectedLength, .sleep 1,
       .logInfoLocked 4, .sleep 4, .acquire, .configure, .sleep 1,
       .waitPacket 1, .release, .logWarnTimeout] ∧
    lockedSleeps (receive envC5 40).1 = [2, 4] ∧
    lockedSleeps (receive envC5 40).1 ≠ [2, 2] := by
  refine ⟨rfl, rfl, ?_⟩
  decide

/-- Claim C5 (amended): the backoff starts at 2
(`LOCK_WAIT_START_SECONDS`, part 1 is the session entry state) and doubles
after each consecutive contention, so N consecutive contentions sleep
`2, 4, …, 2^N` (parts 2 and 3); the backoff is reset to its initial value
by **producing a Measurement** (part 4) — not by a successful
acquisition. -/
theorem C5_backoff_policy_amended :
    (∀ (env : Env) (fuel : ℕ),
        receive env fuel =
          receiveLoop env fuel
            { now := 0, deadline := env.timeoutSeconds,
              lockWait := LOCK_WAIT_START_SECONDS, roundIdx := 0,
              pollIdx := 0 }) ∧
    (∀ (env : Env) (fuel N : ℕ) (s : SState),
        N ≤ fuel →
        (∀ i, i < N → env.rounds (s.roundIdx + i) = .acqBlock) →
        (∀ k, k < N → s.now + backoffSum s.lockWait k < s.deadline) →
        ((receiveLoop env fuel s).1).take (2 * N) =
          contentionTrace s.lockWait N) ∧
    (∀ w N : ℕ, lockedSleeps (contentionTrace w N) =
        (List.range N).map fun i => w * 2 ^ i) ∧
    (∀ (env : Env) (s : SState), s.now < s.deadline →
        (env.polls s.pollIdx).outcome = .success →
        ((innerStep env s).2.2).lockWait = LOCK_WAIT_START_SECONDS) := by
  refine ⟨fun env fuel => rfl, ?_, ?_, ?_⟩
  · intro env fuel N s hfuel hr ht
    obtain ⟨tr, htr⟩ := receiveLoop_contention env N fuel s hfuel hr ht
    rw [htr, ← contentionTrace_length s.lockWait N, List.take_left]
  · intro w N
    induction N generalizing w with
    | zero => rfl
    | succ n ih =>
        have hstep : lockedSleeps (contentionTrace w (n + 1)) =
            w :: lockedSleeps (contentionTrace (w * LOCK_WAIT_FACTOR) n) := by
          simp [contentionTrace, lockedSleeps]
        rw [hstep, ih (w * LOCK_WAIT_FACTOR), List.range_succ_eq_map]
        simp only [List.map_cons, List.map_map]
        congr 1
        · norm_num
        · apply List.map_congr_left
          intro i _
          simp [Function.comp, LOCK_WAIT_FACTOR, pow_succ]
          ring
  · intro env s h hs
    simp [innerStep, if_pos h, hs]

/-- Witness for `C5_backoff_policy_amended`: three consecutive contentions
in `envContention` sleep exactly 2, 4, 8; and a successful poll resets the
backoff state. -/
theorem C5_witness :
    receive envContention 5 =
      receiveLoop envContention 5
        { now := 0, deadline := envContention.timeoutSeconds,
          lockWait := LOCK_WAIT_START_SECONDS, roundIdx := 0, pollIdx := 0 } ∧
    ((receiveLoop envContention 5
        { now := 0, deadline := 10, lockWait := 2, roundIdx := 0,
          pollIdx := 0 }).1).take (2 * 3) = contentionTrace 2 3 ∧
    lockedSleeps (contentionTrace 2 3) = [2, 4, 8] ∧
    ((innerStep envC6W
        { now := 0, deadline := 5, lockWait := 64, roundIdx := 1,
          pollIdx := 0 }).2.2).lockWait = LOCK_WAIT_START_SECONDS :=
  ⟨C5_backoff_policy_amended.1 envContention 5,
   C5_backoff_policy_amended.2.1 envContention 5 3
     { now := 0, deadline := 10, lockWait := 2, roundIdx := 0, pollIdx := 0 }
     (by norm_num) (fun i _ => rfl)
     (fun k hk => by interval_cases k <;> decide),
   by decide,
   C5_backoff_policy_amended.2.2.2 envC6W
     { now := 0, deadline := 5, lockWait := 64, roundIdx := 1, pollIdx := 0 }
     (by decide) rfl⟩

/-! ## Claim C6 -/

/-- Claim C6: whenever a poll attempt inside the deadline produces a
Measurement, the new state's deadline equals the production time plus
`timeout_seconds` and the inner loop continues (part 1, with the yield as
the step's last action); the inner loop stops with `deadlineReached`
exactly when the clock has reached the deadline (part 2); and the session
emits its final timeout warning and finishes precisely when the clock has
reached the deadline (part 3). -/
theorem C6_sliding_deadline :
    (∀ (env : Env) (s : SState), s.now < s.deadline →
        (env.polls s.pollIdx).outcome = .success →
        ((innerStep env s).2.2).deadline =
            ((innerStep env s).2.2).now + env.timeoutSeconds ∧
          (innerStep env s).2.1 = none ∧
          ((innerStep env s).1).getLast? = some .yieldMeasurement) ∧
    (∀ (env : Env) (s : SState), s.deadline ≤ s.now →
        innerStep env s = ([], some .deadlineReached, s)) ∧
    (∀ (env : Env) (fuel : ℕ) (s : SState),
        receiveLoop env (fuel + 1) s = ([.logWarnTimeout], .finished) ↔
          s.deadline ≤ s.now) := by
  refine ⟨?_, ?_, ?_⟩
  · intro env s h hs
    simp [innerStep, if_pos h, hs]
  · intro env s h
    rw [innerStep, if_neg (not_lt.mpr h)]
  · intro env fuel s
    constructor
    · intro heq
      by_contra hge
      have hlt : s.now < s.deadline := not_le.mp hge
      have h1 := congrArg Prod.fst heq
      cases hr : effectiveRound env (env.rounds s.roundIdx) with
      | acqBlock => rw [receiveLoop_acqBlock env fuel s hlt hr] at h1; simp at h1
      | cfgBlock => rw [receiveLoop_cfgBlock env fuel s hlt hr] at h1; simp at h1
      | unlockBlock =>
          rw [receiveLoop_unlockBlock env fuel s hlt hr] at h1
          simp at h1
      | ok =>
          obtain ⟨rest, hrest⟩ := receiveLoop_ok_head env fuel s hlt hr
          rw [hrest] at h1
          simp at h1
    · exact receiveLoop_finish env fuel s

/-- Witness for `C6_sliding_deadline`: in `envC6W` a measurement produced
at model time 1 moves the deadline to `1 + 5`; an inner step past the
deadline stops; and a session entered past its deadline warns and ends. -/
theorem C6_witness :
    (((innerStep envC6W ⟨0, 5, 2, 1, 0⟩).2.2).deadline =
        ((innerStep envC6W ⟨0, 5, 2, 1, 0⟩).2.2).now + envC6W.timeoutSeconds ∧
      (innerStep envC6W ⟨0, 5, 2, 1, 0⟩).2.1 = none ∧
      ((innerStep envC6W ⟨0, 5, 2, 1, 0⟩).1).getLast? =
        some .yieldMeasurement) ∧
    innerStep envC6W ⟨7, 5, 2, 1, 0⟩ = ([], some .deadlineReached, ⟨7, 5, 2, 1, 0⟩) ∧
    receiveLoop envC6W 1 ⟨7, 5, 2, 0, 0⟩ = ([.logWarnTimeout], .finished) :=
  ⟨C6_sliding_deadline.1 envC6W ⟨0, 5, 2, 1, 0⟩ (by decide) rfl,
   C6_sliding_deadline.2.1 envC6W ⟨7, 5, 2, 1, 0⟩ (by decide),
   (C6_sliding_deadline.2.2 envC6W 0 ⟨7, 5, 2, 0, 0⟩).mpr (by decide)⟩

/-! ## Claim C9 -/

/-- Claim C9: in every run of the receive session (any environment, any
fuel, any incoming scanner flag) the `floodScan` scanner succeeds, i.e.
every bounded packet wait in the trace is immediately preceded by a sleep
of at least 1 time-unit — consecutive poll attempts are never spaced less
than the flood-protection interval apart, even when the underlying wait
returns instantly. -/
theorem C9_flood_protection (env : Env) (fuel : ℕ) (p : Bool) :
    (floodScan (receive env fuel).1 p).isSome = true :=
  floodScan_receiveLoop env fuel _ p

/-! ## Claim C8 -/

/-- Claim C8: a packet of unexpected length (inner exit
`unexpectedLength`, raised after the wait, logged at informational level)
triggers exactly one reconfigure cycle — release, the 1-time-unit
reconfiguration cooldown sleep, reacquisition and full reconfiguration —
after which packet polling (flood sleep + bounded wait) resumes
immediately: the segment of the trace between the failing poll and the
next poll is exactly
`release, logInfoUnexpectedLength, sleep 1, acquire, configure`. -/
theorem C8_reconfigure_cycle (env : Env) (g : ℕ) (s s1 : SState)
    (iacts : List Action)
    (hul : env.unlockSpiDevice = false)
    (hnow : s.now < s.deadline)
    (hr0 : env.rounds s.roundIdx = .ok)
    (hinner : innerLoop env (g + 2) { s with roundIdx := s.roundIdx + 1 } =
      (iacts, some .unexpectedLength, s1))
    (hr1 : env.rounds (s.roundIdx + 1) = .ok)
    (hresume : s1.now + 1 < s1.deadline) :
    ((receiveLoop env (g + 3) s).1).take (iacts.length + 9) =
      (.acquire :: .configure :: iacts) ++
        [.release, .logInfoUnexpectedLength, .sleep 1, .acquire, .configure,
         .sleep 1,
         .waitPacket (max (s1.deadline - (s1.now + 1 + 1)) 1)] := by
  have hre0 : effectiveRound env (env.rounds s.roundIdx) = .ok := by
    rw [hr0]
    rfl
  have hrid : s1.roundIdx = s.roundIdx + 1 := by
    have h := innerLoop_roundIdx env (g + 2) { s with roundIdx := s.roundIdx + 1 }
    rw [hinner] at h
    exact h
  have h1 : receiveLoop env (g + 3) s =
      ((.acquire :: .configure ::
          (if env.unlockSpiDevice then [.unlockSpi] else [])) ++ iacts ++
         .release :: .logInfoUnexpectedLength :: .sleep 1 ::
           (receiveLoop env (g + 2) { s1 with now := s1.now + 1 }).1,
       (receiveLoop env (g + 2) { s1 with now := s1.now + 1 }).2) :=
    receiveLoop_ok_unexpected env (g + 2) s iacts s1 hnow hre0 hinner
  have hre1 : effectiveRound env
      (env.rounds ({ s1 with now := s1.now + 1 } : SState).roundIdx) = .ok := by
    show effectiveRound env (env.rounds s1.roundIdx) = .ok
    rw [hrid, hr1]
    rfl
  obtain ⟨rest2, h2⟩ :=
    receiveLoop_ok_setup env (g + 1) { s1 with now := s1.now + 1 } hresume hre1
  have h2' : (receiveLoop env (g + 2) { s1 with now := s1.now + 1 }).1 =
      (.acquire :: .configure ::
         (if env.unlockSpiDevice then [.unlockSpi] else [])) ++
        (innerLoop env (g + 1)
          { s1 with now := s1.now + 1, roundIdx := s1.roundIdx + 1 }).1 ++
        rest2 := h2
  obtain ⟨rest3, h3⟩ := innerLoop_start env g
    { s1 with now := s1.now + 1, roundIdx := s1.roundIdx + 1 } hresume
  have key : (receiveLoop env (g + 3) s).1 =
      ((.acquire :: .configure :: iacts) ++
        [.release, .logInfoUnexpectedLength, .sleep 1, .acquire, .configure,
         .sleep 1,
         .waitPacket (max (s1.deadline - (s1.now + 1 + 1)) 1)]) ++
        (rest3 ++ rest2) := by
    rw [h1]
    dsimp only
    rw [h2', h3, hul]
    simp [List.append_assoc]
  rw [key]
  have hlen : ((.acquire :: .configure :: iacts) ++
      [Action.release, .logInfoUnexpectedLength, .sleep 1, .acquire,
       .configure, .sleep 1,
       .waitPacket (max (s1.deadline - (s1.now + 1 + 1)) 1)]).length =
      iacts.length + 9 := by
    simp [List.length_append]
  rw [← hlen, List.take_left]

/-- Witness for `C8_reconfigure_cycle` in `envC8W`: the first poll meets a
bad-length packet at model time 1 and the session performs exactly one
release/log/cooldown/acquire/configure cycle before the next poll. -/
theorem C8_witness :
    ((receiveLoop envC8W 3
        { now := 0, deadline := 21, lockWait := 2, roundIdx := 0,
          pollIdx := 0 }).1).take 11 =
      [.acquire, .configure, .sleep 1, .waitPacket 20, .release,
       .logInfoUnexpectedLength, .sleep 1, .acquire, .configure, .sleep 1,
       .waitPacket 18] :=
  C8_reconfigure_cycle envC8W 0
    { now := 0, deadline := 21, lockWait := 2, roundIdx := 0, pollIdx := 0 }
    { now := 1, deadline := 21, lockWait := 2, roundIdx := 1, pollIdx := 1 }
    [.sleep 1, .waitPacket 20]
    rfl (by decide) rfl (by decide) rfl (by decide)

/-! ## Claim C10 -/

/-- Claim C10: a `BlockingIOError` raised while the session holds the
hardware — during configuration (part 1), during the cooperative SPI
unlock (part 2, only reachable with the `unlock_spi_device` flag), or
during a packet wait (part 3) — is handled by the same contention path as
at acquisition: the resource is released, the handler logs and sleeps the
current backoff, doubles it, and the loop restarts the acquire/configure
cycle (the recursive `receiveLoop` call on the updated state). -/
theorem C10_blocking_uniform :
    (∀ (env : Env) (fuel : ℕ) (s : SState), s.now < s.deadline →
        env.rounds s.roundIdx = .cfgBlock →
        receiveLoop env (fuel + 1) s =
          (.acquire :: .release :: .logInfoLocked s.lockWait ::
             .sleep s.lockWait ::
             (receiveLoop env fuel
               { s with now := s.now + s.lockWait,
                        lockWait := s.lockWait * LOCK_WAIT_FACTOR,
                        roundIdx := s.roundIdx + 1 }).1,
           (receiveLoop env fuel
             { s with now := s.now + s.lockWait,
                      lockWait := s.lockWait * LOCK_WAIT_FACTOR,
                      roundIdx := s.roundIdx + 1 }).2)) ∧
    (∀ (env : Env) (fuel : ℕ) (s : SState), s.now < s.deadline →
        env.unlockSpiDevice = true →
        env.rounds s.roundIdx = .unlockBlock →
        receiveLoop env (fuel + 1) s =
          (.acquire :: .configure :: .release :: .logInfoLocked s.lockWait ::
             .sleep s.lockWait ::
             (receiveLoop env fuel
               { s with now := s.now + s.lockWait,
                        lockWait := s.lockWait * LOCK_WAIT_FACTOR,
                        roundIdx := s.roundIdx + 1 }).1,
           (receiveLoop env fuel
             { s with now := s.now + s.lockWait,
                      lockWait := s.lockWait * LOCK_WAIT_FACTOR,
                      roundIdx := s.roundIdx + 1 }).2)) ∧
    (∀ (env : Env) (fuel : ℕ) (s : SState) (iacts : List Action) (s1 : SState),
        s.now < s.deadline →
        env.rounds s.roundIdx = .ok →
        innerLoop env fuel { s with roundIdx := s.roundIdx + 1 } =
          (iacts, some .blocked, s1) →
        receiveLoop env (fuel + 1) s =
          ((.acquire :: .configure ::
              (if env.unlockSpiDevice then [.unlockSpi] else [])) ++ iacts ++
             .release :: .logInfoLocked s1.lockWait :: .sleep s1.lockWait ::
               (receiveLoop env fuel
                 { s1 with now := s1.now + s1.lockWait,
                           lockWait := s1.lockWait * LOCK_WAIT_FACTOR }).1,
           (receiveLoop env fuel
             { s1 with now := s1.now + s1.lockWait,
                       lockWait := s1.lockWait * LOCK_WAIT_FACTOR }).2)) := by
  refine ⟨?_, ?_, ?_⟩
  · intro env fuel s hlt hr
    exact receiveLoop_cfgBlock env fuel s hlt (by rw [hr]; rfl)
  · intro env fuel s hlt hu hr
    refine receiveLoop_unlockBlock env fuel s hlt ?_
    rw [hr, effectiveRound, hu]
    rfl
  · intro env fuel s iacts s1 hlt hr hinner
    exact receiveLoop_ok_blocked env fuel s iacts s1 hlt (by rw [hr]; rfl) hinner

/-- Witness for `C10_blocking_uniform`: the three blocking sites in
`envC10cfg`, `envC10unl` and `envC10blk`. -/
theorem C10_witness :
    receiveLoop envC10cfg 4
        { now := 0, deadline := 9, lockWait := 2, roundIdx := 0,
          pollIdx := 0 } =
      (.acquire :: .release :: .logInfoLocked 2 :: .sleep 2 ::
         (receiveLoop envC10cfg 3
           { now := 2, deadline := 9, lockWait := 4, roundIdx := 1,
             pollIdx := 0 }).1,
       (receiveLoop envC10cfg 3
         { now := 2, deadline := 9, lockWait := 4, roundIdx := 1,
           pollIdx := 0 }).2) ∧
    receiveLoop envC10unl 4
        { now := 0, deadline := 9, lockWait := 2, roundIdx := 0,
          pollIdx := 0 } =
      (.acquire :: .configure :: .release :: .logInfoLocked 2 :: .sleep 2 ::
         (receiveLoop envC10unl 3
           { now := 2, deadline := 9, lockWait := 4, roundIdx := 1,
             pollIdx := 0 }).1,
       (receiveLoop envC10unl 3
         { now := 2, deadline := 9, lockWait := 4, roundIdx := 1,
           pollIdx := 0 }).2) ∧
    receiveLoop envC10blk 4
        { now := 0, deadline := 9, lockWait := 2, roundIdx := 0,
          pollIdx := 0 } =
      (([.acquire, .configure] ++ [.sleep 1, .waitPacket 8] ++
         .release :: .logInfoLocked 2 :: .sleep 2 ::
           (receiveLoop envC10blk 3
             { now := 3, deadline := 9, lockWait := 4, roundIdx := 1,
               pollIdx := 1 }).1 : List Action),
       (receiveLoop envC10blk 3
         { now := 3, deadline := 9, lockWait := 4, roundIdx := 1,
           pollIdx := 1 }).2) := by
  refine ⟨?_, ?_, ?_⟩
  · exact C10_blocking_uniform.1 envC10cfg 3
      { now := 0, deadline := 9, lockWait := 2, roundIdx := 0, pollIdx := 0 }
      (by decide) rfl
  · exact C10_blocking_uniform.2.1 envC10unl 3
      { now := 0, deadline := 9, lockWait := 2, roundIdx := 0, pollIdx := 0 }
      (by decide) rfl rfl
  · have h := C10_blocking_uniform.2.2 envC10blk 3
      { now := 0, deadline := 9, lockWait := 2, roundIdx := 0, pollIdx := 0 }
      [.sleep 1, .waitPacket 8]
      { now := 1, deadline := 9, lockWait := 2, roundIdx := 1, pollIdx := 1 }
      (by decide) rfl (by decide)
    exact h

/-- Witness for `C7_humidity_range_amended` at the all-ones humidity
message. -/
theorem C7_witness :
    msgMaxHumidity.length = 65 ∧
    parse_message msgMaxHumidity =
      .ok ⟨(0 : ℚ) / temperatureDivisor - 40, (65520 : ℚ) / humidityDivisor⟩ ∧
    0 ≤ ((65520 : ℚ) / humidityDivisor) ∧
    ((65520 : ℚ) / humidityDivisor) ≤ (65520 : ℚ) / humidityDivisor :=
  ⟨by decide, rfl,
   (C7_humidity_range_amended msgMaxHumidity _ (by decide) rfl).1,
   (C7_humidity_range_amended msgMaxHumidity _ (by decide) rfl).2⟩

end WirelessSensor
